import Mathlib

/-!
Verification of the dispatch-tester benchmark harness core, the Python
test suite under docker/2-router/tests of the repository: the threshold
interpolation engine of test_smoke_01.py, the process teardown finalizer
of process.py, the timeout callback and result accessor of
ombt_process.py, the ombt2 output parser of ombt_process.py, and the
allocator data model of router_data.py.

Modelling conventions: values that are Python floats are modelled as
exact rationals; Python 2 integer division on nonnegative ints is
modelled as Nat floor division; Python functions that can raise are
modelled as Option-valued functions returning none on the raising path.
-/

namespace DispatchTester

/-- Enum OmbtControllerCommand of ombt_process.py: the commands that can
be issued through the ombt2 controller. -/
inductive OmbtControllerCommand where
  | RPC_CALL
  | RPC_CAST
  | RPC_FANOUT
  | NOTIFY
  | SHUTDOWN
deriving DecidableEq

/-- The THRESHOLD_BASELINE dictionary of test_smoke_01.py: for each
controller command present as a key, the eight anchor values
[latency client 1024, latency client 65536, latency server 1024,
 latency server 65536, TPS client 1024, TPS client 65536,
 TPS server 1024, TPS server 65536].  Commands absent from the
dictionary (SHUTDOWN) map to none. -/
def THRESHOLD_BASELINE : OmbtControllerCommand → Option (List ℚ)
  | .NOTIFY => some [10.5, 22.0, 5.7, 15.4, 27.1, 24.8, 27.3, 25.0]
  | .RPC_CALL => some [15.0, 33.5, 7.2, 13.4, 35.0, 30.4, 35.0, 30.7]
  | .RPC_CAST => some [4.0, 4.8, 6.5, 9.9, 38.6, 38.3, 39.0, 38.7]
  | .RPC_FANOUT => some [3.1, 4.3, 7.7, 12.8, 38.5, 38, 77.9, 76.8]
  | .SHUTDOWN => none

/-- The TOLERANCE constant of test_smoke_01.py (a percentage). -/
def TOLERANCE : ℚ := 30.0

/-- Enum Metric of test_smoke_01.py.  Its integer value is the start
position of the related pair of anchors in a THRESHOLD_BASELINE row. -/
inductive Metric where
  | LATENCY_CLIENT
  | LATENCY_SERVER
  | TPS_CLIENT
  | TPS_SERVER
deriving DecidableEq

/-- The integer value of a Metric enum member. -/
def Metric.val : Metric → ℕ
  | .LATENCY_CLIENT => 0
  | .LATENCY_SERVER => 2
  | .TPS_CLIENT => 4
  | .TPS_SERVER => 6

/-- calculate_threshold of test_smoke_01.py.  The argument metric is the
integer value of a Metric member, length the message length in bytes.
The source subexpression (length-1024)/1024 is Python 2 integer
division, modelled by Nat floor division (faithful for length >= 1024).
For a command that is no key of THRESHOLD_BASELINE the Python code
raises (None[metric:] fails); that path is modelled as none. -/
def calculate_threshold (cmd : OmbtControllerCommand) (metric : ℕ) (length : ℕ) :
    Option ℚ :=
  match THRESHOLD_BASELINE cmd with
  | none => none
  | some baseline =>
    let orig_min_max := (baseline.drop metric).take 2
    if metric = Metric.LATENCY_CLIENT.val ∨ metric = Metric.LATENCY_SERVER.val then
      let min_max := orig_min_max.map (fun v => v + v / 100 * TOLERANCE)
      some (((min_max.getD 1 0 - min_max.getD 0 0) / (64 - 1)) *
          (((length - 1024) / 1024 : ℕ) : ℚ) + min_max.getD 0 0)
    else
      let min_max := orig_min_max.map (fun v => v - v / 100 * TOLERANCE)
      some (min_max.getD 0 0 - ((min_max.getD 0 0 - min_max.getD 1 0) / (64 - 1)) *
          (((length - 1024) / 1024 : ℕ) : ℚ))

/-- Modelled from the spec: the ExpectedBound formula of section 4.4 of
the specification, read literally: exact linear interpolation over real
arithmetic between the tolerance-adjusted anchors at L0 = 1024 and
L1 = 65536, widening latency anchors by TOLERANCE percent and narrowing
throughput anchors by TOLERANCE percent.  Kept Option-valued so that it
is comparable with calculate_threshold on every command. -/
def specExpectedBound (cmd : OmbtControllerCommand) (metric : ℕ) (length : ℕ) :
    Option ℚ :=
  match THRESHOLD_BASELINE cmd with
  | none => none
  | some baseline =>
    let v0 := baseline.getD metric 0
    let v1 := baseline.getD (metric + 1) 0
    if metric = Metric.LATENCY_CLIENT.val ∨ metric = Metric.LATENCY_SERVER.val then
      let v0a := v0 * (1 + TOLERANCE / 100)
      let v1a := v1 * (1 + TOLERANCE / 100)
      some (v0a + (v1a - v0a) * (((length : ℚ) - 1024) / (65536 - 1024)))
    else
      let v0a := v0 * (1 - TOLERANCE / 100)
      let v1a := v1 * (1 - TOLERANCE / 100)
      some (v0a - (v0a - v1a) * (((length : ℚ) - 1024) / (65536 - 1024)))

/-- The tolerance-adjusted first anchor for a command and metric: the
baseline value at the metric position, widened upward by TOLERANCE
percent for latency metrics and narrowed downward for throughput
metrics (the quantity the spec calls the adjusted v0). -/
def adjustedFirstAnchor (cmd : OmbtControllerCommand) (m : Metric) : ℚ :=
  let v0 := ((THRESHOLD_BASELINE cmd).getD []).getD m.val 0
  if m = .LATENCY_CLIENT ∨ m = .LATENCY_SERVER then
    v0 + v0 / 100 * TOLERANCE
  else
    v0 - v0 / 100 * TOLERANCE

/-- Whether a Metric is of the latency class. -/
def Metric.isLatency : Metric → Bool
  | .LATENCY_CLIENT => true
  | .LATENCY_SERVER => true
  | .TPS_CLIENT => false
  | .TPS_SERVER => false

/-- The latency branch of calculate_threshold, as a function of the two
baseline anchors a (at length 1024) and b (at length 65536). -/
def latBound (a b : ℚ) (length : ℕ) : ℚ :=
  (b + b / 100 * TOLERANCE - (a + a / 100 * TOLERANCE)) / (64 - 1) *
      (((length - 1024) / 1024 : ℕ) : ℚ) + (a + a / 100 * TOLERANCE)

/-- The throughput branch of calculate_threshold, as a function of the
two baseline anchors a (at length 1024) and b (at length 65536). -/
def tpsBound (a b : ℚ) (length : ℕ) : ℚ :=
  a - a / 100 * TOLERANCE -
    (a - a / 100 * TOLERANCE - (b - b / 100 * TOLERANCE)) / (64 - 1) *
      (((length - 1024) / 1024 : ℕ) : ℚ)

/-- The latency branch of specExpectedBound as a function of the two
anchors. -/
def specLatBound (a b : ℚ) (length : ℕ) : ℚ :=
  a * (1 + TOLERANCE / 100) +
    (b * (1 + TOLERANCE / 100) - a * (1 + TOLERANCE / 100)) *
      (((length : ℚ) - 1024) / (65536 - 1024))

/-- The throughput branch of specExpectedBound as a function of the two
anchors. -/
def specTpsBound (a b : ℚ) (length : ℕ) : ℚ :=
  a * (1 - TOLERANCE / 100) -
    (a * (1 - TOLERANCE / 100) - b * (1 - TOLERANCE / 100)) *
      (((length : ℚ) - 1024) / (65536 - 1024))

/-- Signals and waits the harness can direct at a supervised process:
a one second sleep of the teardown retry loop, the graceful terminate
signal, and the forced kill signal. -/
inductive TAction where
  | sleep
  | terminate
  | kill
deriving DecidableEq

/-- Process.MAX_ATTEMPTS of process.py. -/
def Process.MAX_ATTEMPTS : ℕ := 3

/-- Process.ATTEMPT_DELAY of process.py (seconds per retry sleep). -/
def Process.ATTEMPT_DELAY : ℕ := 1

/-- State of one supervised external process as the teardown logic of
process.py observes it: exitsAt is the time, in seconds from a common
origin, at which the process exits on its own (none when it would run
forever), and killed records that a forced kill already happened. -/
structure PState where
  exitsAt : Option ℕ
  killed : Bool
deriving DecidableEq

/-- Process.is_running of process.py, at time t: poll() returns None
exactly while the process has neither exited on its own nor been
killed. -/
def PState.is_running (p : PState) (t : ℕ) : Bool :=
  !p.killed &&
    (match p.exitsAt with
     | none => true
     | some e => t < e)

/-- The retry loop of Process.teardown: while the process is running
and attempts remain, sleep ATTEMPT_DELAY seconds; when the loop is
left, kill the process exactly when the last liveness poll still saw
it running (self.returncode is None).  Returns the state after the
teardown together with the emitted trace of actions. -/
def teardownLoop (p : PState) (t : ℕ) : ℕ → PState × List TAction
  | 0 =>
    if p.is_running t then ({ p with killed := true }, [TAction.kill])
    else (p, [])
  | fuel + 1 =>
    if p.is_running t then
      let r := teardownLoop p (t + Process.ATTEMPT_DELAY) fuel
      (r.1, TAction.sleep :: r.2)
    else (p, [])

/-- Process.teardown of process.py, started at time t. -/
def Process.teardown (p : PState) (t : ℕ) : PState × List TAction :=
  teardownLoop p t Process.MAX_ATTEMPTS

/-- Python str.split on a newline separator: splits a character list at
every newline, keeping empty pieces (so the empty text yields one empty
piece, like "".split in Python yields [""]). -/
def splitNl : List Char → List (List Char)
  | [] => [[]]
  | c :: t =>
    if c = '\n' then [] :: splitNl t
    else
      match splitNl t with
      | [] => [[c]]
      | h :: r => (c :: h) :: r

/-- Python str.rstrip with a newline argument: removes trailing newline
characters from a line. -/
def rstripNl (l : List Char) : List Char :=
  (l.reverse.dropWhile (fun c => c = '\n')).reverse

/-- re.match of a literal pattern: if pat is a leading part of l,
return what follows it, else none (models the anchored match and the
group that follows the literal). -/
def dropPref (pat : List Char) (l : List Char) : Option (List Char) :=
  if pat.isPrefixOf l then some (l.drop pat.length) else none

/-- First position where the literal pat occurs in l, returning what
follows that occurrence; none when pat does not occur.  Used to model
an unanchored .*pat inside an anchored regular expression. -/
def findSub (pat : List Char) : List Char → Option (List Char)
  | [] => if pat.isEmpty then some [] else none
  | c :: t => if pat.isPrefixOf (c :: t) then some ((c :: t).drop pat.length) else findSub pat t

/-- The value of a nonempty digit run, as a natural number. -/
def digitsToNat (ds : List Char) : ℕ :=
  ds.foldl (fun n c => 10 * n + (c.toNat - 48)) 0

/-- An anchored match of the float group [0-9]+\.[0-9]+ at the head of
l: on success returns the exact rational value of the token together
with the characters that follow it. -/
def parseUFloat (l : List Char) : Option (ℚ × List Char) :=
  let ds := l.takeWhile Char.isDigit
  if ds.isEmpty then none
  else
    match l.drop ds.length with
    | '.' :: r =>
      let fs := r.takeWhile Char.isDigit
      if fs.isEmpty then none
      else some ((digitsToNat ds : ℚ) + (digitsToNat fs : ℚ) / 10 ^ fs.length,
        r.drop fs.length)
    | _ => none

/-- The regular expression of ombt_process.py for a section header,
the raw pattern "Aggregated .*<who>.* results:": an "Aggregated "
prefix, then <who> somewhere, then " results:" somewhere after it.
Matching the first occurrence of <who> and searching " results:" in its
tail is equivalent to the backtracking search of the original. -/
def matchSectionHeader (who : List Char) (l : List Char) : Bool :=
  match dropPref "Aggregated ".data l with
  | none => false
  | some r =>
    match findSub who r with
    | none => false
    | some r2 => (findSub " results:".data r2).isSome

/-- The throughput line pattern of ombt_process.py,
the raw pattern "Aggregate throughput: ([0-9]+\.[0-9]+) msgs/sec",
returning the float group on a match. -/
def matchThroughput (l : List Char) : Option ℚ :=
  match dropPref "Aggregate throughput: ".data l with
  | none => none
  | some r =>
    match parseUFloat r with
    | none => none
    | some (q, r2) => if " msgs/sec".data.isPrefixOf r2 then some q else none

/-- The latency line pattern of ombt_process.py,
the raw pattern
"Latency [0-9]+ samples \(msecs\): Average ([0-9]+\.[0-9]+) StdDev",
returning the Average float group on a match. -/
def matchLatency (l : List Char) : Option ℚ :=
  match dropPref "Latency ".data l with
  | none => none
  | some r =>
    let ds := r.takeWhile Char.isDigit
    if ds.isEmpty then none
    else
      match dropPref " samples (msecs): Average ".data (r.drop ds.length) with
      | none => none
      | some r2 =>
        match parseUFloat r2 with
        | none => none
        | some (q, r3) => if " StdDev".data.isPrefixOf r3 then some q else none

/-- One side of the parsed results (inner class OmbtData of
ombt_process.py). -/
structure OmbtData where
  throughput : ℚ
  latency : ℚ
deriving DecidableEq

/-- The zero-initialised OmbtData of OmbtResults.__init__. -/
def OmbtData.init : OmbtData := { throughput := 0, latency := 0 }

/-- The OmbtResults object of ombt_process.py. -/
structure OmbtResults where
  ombt_controller_cmd : OmbtControllerCommand
  error_found : Bool
  error_message : Option (List Char)
  client_data : OmbtData
  server_data : OmbtData
deriving DecidableEq

/-- The section the local variable ombt_data of
OmbtResults.from_output currently refers to. -/
inductive Side where
  | server
  | client
deriving DecidableEq

/-- The freshly constructed OmbtResults of OmbtResults.__init__. -/
def OmbtResults.init (cmd : OmbtControllerCommand) : OmbtResults :=
  { ombt_controller_cmd := cmd
    error_found := false
    error_message := none
    client_data := OmbtData.init
    server_data := OmbtData.init }

/-- Write the throughput field of the currently selected section. -/
def setThroughput (r : OmbtResults) (s : Side) (q : ℚ) : OmbtResults :=
  match s with
  | .server => { r with server_data := { r.server_data with throughput := q } }
  | .client => { r with client_data := { r.client_data with throughput := q } }

/-- Write the latency field of the currently selected section. -/
def setLatency (r : OmbtResults) (s : Side) (q : ℚ) : OmbtResults :=
  match s with
  | .server => { r with server_data := { r.server_data with latency := q } }
  | .client => { r with client_data := { r.client_data with latency := q } }

/-- The body of the per-line loop of OmbtResults.from_output: the state
is the results object under construction together with the section the
ombt_data variable points at (none before any header was seen).  The
error pattern is checked first (and skips the rest of the loop body); a
header line switches the section and still falls through to the metric
checks, exactly like the if/elif chain of the source; a metric line
before any header is dropped. -/
def processLine (st : OmbtResults × Option Side) (l : List Char) :
    OmbtResults × Option Side :=
  let (results, cur) := st
  match dropPref "Error: ".data l with
  | some msg => ({ results with error_found := true, error_message := some msg }, cur)
  | none =>
    let cur2 :=
      if matchSectionHeader "Server".data l then some Side.server
      else if matchSectionHeader "Client".data l then some Side.client
      else cur
    match cur2 with
    | none => (results, none)
    | some side =>
      match matchThroughput l with
      | some q => (setThroughput results side q, cur2)
      | none =>
        match matchLatency l with
        | some q => (setLatency results side q, cur2)
        | none => (results, cur2)

/-- OmbtResults.from_output of ombt_process.py: returns none for empty
output, otherwise folds the line loop over the newline-split, rstripped
lines of the captured stdout. -/
def OmbtResults.from_output (cmd : OmbtControllerCommand) (stdout : String) :
    Option OmbtResults :=
  if stdout.data.isEmpty then none
  else
    some ((((splitNl stdout.data).map rstripNl).foldl processLine
      (OmbtResults.init cmd, none)).1)

/-- The observable state of one OmbtController handle at the time
get_results is called: the Popen returncode (none while the process
has not been polled as exited), the terminated flag set by the timeout
callback, and the captured stdout text. -/
structure OmbtControllerState where
  returncode : Option ℤ
  terminated : Bool
  _result : String
deriving DecidableEq

/-- OmbtController.get_results of ombt_process.py: None unless the
process exited with status 0 and was never marked timed out, otherwise
the parsed output. -/
def OmbtController.get_results (cmd : OmbtControllerCommand) (s : OmbtControllerState) :
    Option OmbtResults :=
  if s.returncode ≠ some 0 ∨ s.terminated = true then none
  else OmbtResults.from_output cmd s._result

/-- OmbtController._timeout of ombt_process.py, as a function of the
liveness of the supervised process at the moment the alarm fires and of
the current terminated flag: returns the new terminated flag and the
signals sent. -/
def OmbtController._timeout (running : Bool) (terminated : Bool) : Bool × List TAction :=
  if running then (true, [TAction.terminate]) else (terminated, [])

/-- A line that matches none of the five line patterns of
OmbtResults.from_output: processing it neither changes the results
object nor the current section. -/
def isInert (l : List Char) : Bool :=
  (dropPref "Error: ".data l).isNone &&
  !matchSectionHeader "Server".data l &&
  !matchSectionHeader "Client".data l &&
  (matchThroughput l).isNone &&
  (matchLatency l).isNone

/-- A JSON value as the management query returns them: the embedding
types the values that actually occur (strings and integers). -/
inductive JValue where
  | jstr (s : String)
  | jnum (n : ℤ)
  | jnull
deriving DecidableEq

/-- A parsed JSON object, as its key/value pairs in textual order. -/
abbrev JObject := List (String × JValue)

/-- Python dict lookup over an association list, with later entries
winning as for repeated keys in a dict literal or a JSON object. -/
def dictGet {α : Type} (kvs : List (String × α)) (k : String) : Option α :=
  kvs.reverse.lookup k

/-- The AllocatorInfo object of router_data.py, with the fields its
constructor initialises. -/
structure AllocatorInfo where
  heldByThreads : ℤ
  typeSize : ℤ
  transferBatchSize : ℤ
  globalFreeListMax : ℤ
  batchesRebalancedToGlobal : ℤ
  typeName : Option String
  batchesRebalancedToThreads : ℤ
  totalFreeToHeap : ℤ
  localFreeListMax : ℤ
  totalAllocFromHeap : ℤ
  type : Option String
  identity : Option JValue
  name : Option String
deriving DecidableEq

/-- A counter field of the object, from a parsed JSON object: 0 when
the key is absent (the __init__ default). -/
def getIntField (o : JObject) (k : String) : ℤ :=
  match dictGet o k with
  | some (.jnum n) => n
  | _ => 0

/-- A name-like field of the object, from a parsed JSON object: None
when the key is absent (the __init__ default). -/
def getStrField (o : JObject) (k : String) : Option String :=
  match dictGet o k with
  | some (.jstr s) => some s
  | _ => none

/-- AllocatorInfo.__init__ applied to the keyword arguments of one
parsed JSON object: all counters default to 0 and all name-like fields
to None, then every present key overwrites its default. -/
def AllocatorInfo.ofObject (o : JObject) : AllocatorInfo :=
  { heldByThreads := getIntField o "heldByThreads"
    typeSize := getIntField o "typeSize"
    transferBatchSize := getIntField o "transferBatchSize"
    globalFreeListMax := getIntField o "globalFreeListMax"
    batchesRebalancedToGlobal := getIntField o "batchesRebalancedToGlobal"
    typeName := getStrField o "typeName"
    batchesRebalancedToThreads := getIntField o "batchesRebalancedToThreads"
    totalFreeToHeap := getIntField o "totalFreeToHeap"
    localFreeListMax := getIntField o "localFreeListMax"
    totalAllocFromHeap := getIntField o "totalAllocFromHeap"
    type := getStrField o "type"
    identity := dictGet o "identity"
    name := getStrField o "name" }

/-- AllocatorInfo.from_qdmanage_json_out of router_data.py, applied to
the array the external json library already parsed: keeps exactly the
objects whose type field equals the dispatch allocator type tag and
projects each of them into an AllocatorInfo.  An object without a type
key makes the source raise KeyError; that path is modelled as none. -/
def AllocatorInfo.from_qdmanage_json_out (arr : List JObject) : Option (List AllocatorInfo) :=
  if arr.all (fun d => (dictGet d "type").isSome) then
    some ((arr.filter (fun d =>
      dictGet d "type" == some (JValue.jstr "org.apache.qpid.dispatch.allocator"))).map
        AllocatorInfo.ofObject)
  else none

/-- The THRESHOLDS dictionary of router_data.py, in source order,
including the repeated qdr_connection_t entry (dict construction makes
the later entry win; both carry the same limits). -/
def THRESHOLDS : List (String × List (String × ℤ)) :=
  [   ("qd_bitmask_t", [("totalAllocFromHeap", 512), ("heldByThreads", 512)]),
   ("qd_buffer_t", [("totalAllocFromHeap", 768), ("heldByThreads", 512)]),
   ("qd_composed_field_t", [("totalAllocFromHeap", 256), ("heldByThreads", 256)]),
   ("qd_composite_t", [("totalAllocFromHeap", 256), ("heldByThreads", 256)]),
   ("qd_connection_t", [("totalAllocFromHeap", 128), ("heldByThreads", 128)]),
   ("qd_connector_t", [("totalAllocFromHeap", 128), ("heldByThreads", 128)]),
   ("qd_deferred_call_t", [("totalAllocFromHeap", 256), ("heldByThreads", 256)]),
   ("qd_hash_handle_t", [("totalAllocFromHeap", 512), ("heldByThreads", 512)]),
   ("qd_hash_item_t", [("totalAllocFromHeap", 512), ("heldByThreads", 512)]),
   ("qd_iterator_t", [("totalAllocFromHeap", 512), ("heldByThreads", 512)]),
   ("qd_link_ref_t", [("totalAllocFromHeap", 384), ("heldByThreads", 256)]),
   ("qd_link_t", [("totalAllocFromHeap", 768), ("heldByThreads", 768)]),
   ("qd_listener_t", [("totalAllocFromHeap", 128), ("heldByThreads", 128)]),
   ("qd_log_entry_t", [("totalAllocFromHeap", 2048), ("heldByThreads", 2048)]),
   ("qd_message_content_t", [("totalAllocFromHeap", 256), ("heldByThreads", 256)]),
   ("qd_message_t", [("totalAllocFromHeap", 512), ("heldByThreads", 512)]),
   ("qd_node_t", [("totalAllocFromHeap", 128), ("heldByThreads", 128)]),
   ("qd_parsed_field_t", [("totalAllocFromHeap", 256), ("heldByThreads", 256)]),
   ("qd_parsed_turbo_t", [("totalAllocFromHeap", 256), ("heldByThreads", 256)]),
   ("qd_parse_node_t", [("totalAllocFromHeap", 256), ("heldByThreads", 256)]),
   ("qdr_action_t", [("totalAllocFromHeap", 512), ("heldByThreads", 256)]),
   ("qdr_address_config_t", [("totalAllocFromHeap", 128), ("heldByThreads", 128)]),
   ("qdr_address_t", [("totalAllocFromHeap", 256), ("heldByThreads", 256)]),
   ("qdr_connection_info_t", [("totalAllocFromHeap", 256), ("heldByThreads", 256)]),
   ("qdr_connection_t", [("totalAllocFromHeap", 256), ("heldByThreads", 256)]),
   ("qdr_connection_work_t", [("totalAllocFromHeap", 512), ("heldByThreads", 512)]),
   ("qdr_delivery_ref_t", [("totalAllocFromHeap", 512), ("heldByThreads", 512)]),
   ("qdr_delivery_t", [("totalAllocFromHeap", 512), ("heldByThreads", 512)]),
   ("qdr_connection_t", [("totalAllocFromHeap", 256), ("heldByThreads", 256)]),
   ("qdr_error_t", [("totalAllocFromHeap", 512), ("heldByThreads", 512)]),
   ("qdr_field_t", [("totalAllocFromHeap", 512), ("heldByThreads", 512)]),
   ("qdr_general_work_t", [("totalAllocFromHeap", 512), ("heldByThreads", 512)]),
   ("qdr_link_ref_t", [("totalAllocFromHeap", 1536), ("heldByThreads", 1536)]),
   ("qdr_link_t", [("totalAllocFromHeap", 1024), ("heldByThreads", 1024)]),
   ("qdr_link_work_t", [("totalAllocFromHeap", 512), ("heldByThreads", 512)]),
   ("qdr_node_t", [("totalAllocFromHeap", 128), ("heldByThreads", 128)]),
   ("qdr_query_t", [("totalAllocFromHeap", 128), ("heldByThreads", 128)]),
   ("qdr_terminus_t", [("totalAllocFromHeap", 512), ("heldByThreads", 512)]),
   ("qd_timer_t", [("totalAllocFromHeap", 256), ("heldByThreads", 256)]),
   ("qdtm_router_t", [("totalAllocFromHeap", 128), ("heldByThreads", 128)])]

/-- self.__dict__[key] for the counter keys that occur in THRESHOLDS. -/
def AllocatorInfo.counterValue (a : AllocatorInfo) (key : String) : ℤ :=
  if key = "totalAllocFromHeap" then a.totalAllocFromHeap
  else if key = "heldByThreads" then a.heldByThreads
  else 0

/-- AllocatorInfo.threshold_exceeds_list of router_data.py: none models
the AttributeError raised when THRESHOLDS.get returns None (typeName
missing from the table, or no typeName at all); otherwise the list of
(key, current, max) triples whose current value exceeds the limit. -/
def AllocatorInfo.threshold_exceeds_list (a : AllocatorInfo) :
    Option (List (String × ℤ × ℤ)) :=
  match a.typeName with
  | none => none
  | some tn =>
    match dictGet THRESHOLDS tn with
    | none => none
    | some threshold =>
      some (threshold.foldl
        (fun acc kv =>
          if a.counterValue kv.1 > kv.2 then acc ++ [(kv.1, a.counterValue kv.1, kv.2)]
          else acc) [])

lemma latBound_mono (a b : ℚ) (hab : a ≤ b) (l1 l2 : ℕ) (h12 : l1 ≤ l2)
    (f1 f2 : Option ℚ) (e1 : f1 = some (latBound a b l1)) (e2 : f2 = some (latBound a b l2)) :
    f1.getD 0 ≤ f2.getD 0 := by
  subst e1 e2
  simp only [Option.getD_some, latBound]
  have hT : TOLERANCE = 30 := by norm_num [TOLERANCE]
  have hb : 0 ≤ (b + b / 100 * TOLERANCE - (a + a / 100 * TOLERANCE)) / (64 - 1) := by
    rw [hT]
    apply div_nonneg _ (by norm_num)
    linarith
  have hcast : (((l1 - 1024) / 1024 : ℕ) : ℚ) ≤ (((l2 - 1024) / 1024 : ℕ) : ℚ) :=
    Nat.cast_le.2 (Nat.div_le_div_right (Nat.sub_le_sub_right h12 1024))
  have h2 := mul_le_mul_of_nonneg_left hcast hb
  linarith

lemma tpsBound_mono (a b : ℚ) (hab : b ≤ a) (l1 l2 : ℕ) (h12 : l1 ≤ l2)
    (f1 f2 : Option ℚ) (e1 : f1 = some (tpsBound a b l1)) (e2 : f2 = some (tpsBound a b l2)) :
    f2.getD 0 ≤ f1.getD 0 := by
  subst e1 e2
  simp only [Option.getD_some, tpsBound]
  have hT : TOLERANCE = 30 := by norm_num [TOLERANCE]
  have hb : 0 ≤ (a - a / 100 * TOLERANCE - (b - b / 100 * TOLERANCE)) / (64 - 1) := by
    rw [hT]
    apply div_nonneg _ (by norm_num)
    linarith
  have hcast : (((l1 - 1024) / 1024 : ℕ) : ℚ) ≤ (((l2 - 1024) / 1024 : ℕ) : ℚ) :=
    Nat.cast_le.2 (Nat.div_le_div_right (Nat.sub_le_sub_right h12 1024))
  have h2 := mul_le_mul_of_nonneg_left hcast hb
  linarith

lemma threshold_mono_lat (cmd : OmbtControllerCommand) (m : Metric) (hm : m.isLatency = true)
    (l1 l2 : ℕ) (h12 : l1 ≤ l2) :
    (calculate_threshold cmd m.val l1).getD 0 ≤ (calculate_threshold cmd m.val l2).getD 0 := by
  cases cmd <;> cases m <;> revert hm <;> intro hm
  case RPC_CALL.LATENCY_CLIENT => exact latBound_mono 15.0 33.5 (by norm_num) l1 l2 h12 _ _ rfl rfl
  case RPC_CALL.LATENCY_SERVER => exact latBound_mono 7.2 13.4 (by norm_num) l1 l2 h12 _ _ rfl rfl
  case RPC_CAST.LATENCY_CLIENT => exact latBound_mono 4.0 4.8 (by norm_num) l1 l2 h12 _ _ rfl rfl
  case RPC_CAST.LATENCY_SERVER => exact latBound_mono 6.5 9.9 (by norm_num) l1 l2 h12 _ _ rfl rfl
  case RPC_FANOUT.LATENCY_CLIENT => exact latBound_mono 3.1 4.3 (by norm_num) l1 l2 h12 _ _ rfl rfl
  case RPC_FANOUT.LATENCY_SERVER => exact latBound_mono 7.7 12.8 (by norm_num) l1 l2 h12 _ _ rfl rfl
  case NOTIFY.LATENCY_CLIENT => exact latBound_mono 10.5 22.0 (by norm_num) l1 l2 h12 _ _ rfl rfl
  case NOTIFY.LATENCY_SERVER => exact latBound_mono 5.7 15.4 (by norm_num) l1 l2 h12 _ _ rfl rfl
  case SHUTDOWN.LATENCY_CLIENT => exact le_refl 0
  case SHUTDOWN.LATENCY_SERVER => exact le_refl 0
  all_goals exact absurd hm (by simp [Metric.isLatency])

lemma threshold_mono_tps (cmd : OmbtControllerCommand) (m : Metric) (hm : m.isLatency = false)
    (l1 l2 : ℕ) (h12 : l1 ≤ l2) :
    (calculate_threshold cmd m.val l2).getD 0 ≤ (calculate_threshold cmd m.val l1).getD 0 := by
  cases cmd <;> cases m <;> revert hm <;> intro hm
  case RPC_CALL.TPS_CLIENT => exact tpsBound_mono 35.0 30.4 (by norm_num) l1 l2 h12 _ _ rfl rfl
  case RPC_CALL.TPS_SERVER => exact tpsBound_mono 35.0 30.7 (by norm_num) l1 l2 h12 _ _ rfl rfl
  case RPC_CAST.TPS_CLIENT => exact tpsBound_mono 38.6 38.3 (by norm_num) l1 l2 h12 _ _ rfl rfl
  case RPC_CAST.TPS_SERVER => exact tpsBound_mono 39.0 38.7 (by norm_num) l1 l2 h12 _ _ rfl rfl
  case RPC_FANOUT.TPS_CLIENT => exact tpsBound_mono 38.5 38 (by norm_num) l1 l2 h12 _ _ rfl rfl
  case RPC_FANOUT.TPS_SERVER => exact tpsBound_mono 77.9 76.8 (by norm_num) l1 l2 h12 _ _ rfl rfl
  case NOTIFY.TPS_CLIENT => exact tpsBound_mono 27.1 24.8 (by norm_num) l1 l2 h12 _ _ rfl rfl
  case NOTIFY.TPS_SERVER => exact tpsBound_mono 27.3 25.0 (by norm_num) l1 l2 h12 _ _ rfl rfl
  case SHUTDOWN.TPS_CLIENT => exact le_refl 0
  case SHUTDOWN.TPS_SERVER => exact le_refl 0
  all_goals exact absurd hm (by simp [Metric.isLatency])

lemma latBound_at_1024 (a b : ℚ) : latBound a b 1024 = a + a / 100 * TOLERANCE := by
  unfold latBound
  norm_num

lemma tpsBound_at_1024 (a b : ℚ) : tpsBound a b 1024 = a - a / 100 * TOLERANCE := by
  unfold tpsBound
  norm_num

lemma at_L0_lat (cmd : OmbtControllerCommand) (m : Metric) (a b : ℚ)
    (e : calculate_threshold cmd m.val 1024 = some (latBound a b 1024))
    (e2 : adjustedFirstAnchor cmd m = a + a / 100 * TOLERANCE) :
    calculate_threshold cmd m.val 1024 = some (adjustedFirstAnchor cmd m) := by
  rw [e, latBound_at_1024, e2]

lemma at_L0_tps (cmd : OmbtControllerCommand) (m : Metric) (a b : ℚ)
    (e : calculate_threshold cmd m.val 1024 = some (tpsBound a b 1024))
    (e2 : adjustedFirstAnchor cmd m = a - a / 100 * TOLERANCE) :
    calculate_threshold cmd m.val 1024 = some (adjustedFirstAnchor cmd m) := by
  rw [e, tpsBound_at_1024, e2]

lemma threshold_at_L0 (cmd : OmbtControllerCommand) (m : Metric) (hcmd : cmd ≠ .SHUTDOWN) :
    calculate_threshold cmd m.val 1024 = some (adjustedFirstAnchor cmd m) := by
  cases cmd <;> cases m
  case RPC_CALL.LATENCY_CLIENT =>
    exact at_L0_lat OmbtControllerCommand.RPC_CALL Metric.LATENCY_CLIENT 15.0 33.5 rfl rfl
  case RPC_CALL.LATENCY_SERVER =>
    exact at_L0_lat OmbtControllerCommand.RPC_CALL Metric.LATENCY_SERVER 7.2 13.4 rfl rfl
  case RPC_CALL.TPS_CLIENT =>
    exact at_L0_tps OmbtControllerCommand.RPC_CALL Metric.TPS_CLIENT 35.0 30.4 rfl rfl
  case RPC_CALL.TPS_SERVER =>
    exact at_L0_tps OmbtControllerCommand.RPC_CALL Metric.TPS_SERVER 35.0 30.7 rfl rfl
  case RPC_CAST.LATENCY_CLIENT =>
    exact at_L0_lat OmbtControllerCommand.RPC_CAST Metric.LATENCY_CLIENT 4.0 4.8 rfl rfl
  case RPC_CAST.LATENCY_SERVER =>
    exact at_L0_lat OmbtControllerCommand.RPC_CAST Metric.LATENCY_SERVER 6.5 9.9 rfl rfl
  case RPC_CAST.TPS_CLIENT =>
    exact at_L0_tps OmbtControllerCommand.RPC_CAST Metric.TPS_CLIENT 38.6 38.3 rfl rfl
  case RPC_CAST.TPS_SERVER =>
    exact at_L0_tps OmbtControllerCommand.RPC_CAST Metric.TPS_SERVER 39.0 38.7 rfl rfl
  case RPC_FANOUT.LATENCY_CLIENT =>
    exact at_L0_lat OmbtControllerCommand.RPC_FANOUT Metric.LATENCY_CLIENT 3.1 4.3 rfl rfl
  case RPC_FANOUT.LATENCY_SERVER =>
    exact at_L0_lat OmbtControllerCommand.RPC_FANOUT Metric.LATENCY_SERVER 7.7 12.8 rfl rfl
  case RPC_FANOUT.TPS_CLIENT =>
    exact at_L0_tps OmbtControllerCommand.RPC_FANOUT Metric.TPS_CLIENT 38.5 38 rfl rfl
  case RPC_FANOUT.TPS_SERVER =>
    exact at_L0_tps OmbtControllerCommand.RPC_FANOUT Metric.TPS_SERVER 77.9 76.8 rfl rfl
  case NOTIFY.LATENCY_CLIENT =>
    exact at_L0_lat OmbtControllerCommand.NOTIFY Metric.LATENCY_CLIENT 10.5 22.0 rfl rfl
  case NOTIFY.LATENCY_SERVER =>
    exact at_L0_lat OmbtControllerCommand.NOTIFY Metric.LATENCY_SERVER 5.7 15.4 rfl rfl
  case NOTIFY.TPS_CLIENT =>
    exact at_L0_tps OmbtControllerCommand.NOTIFY Metric.TPS_CLIENT 27.1 24.8 rfl rfl
  case NOTIFY.TPS_SERVER =>
    exact at_L0_tps OmbtControllerCommand.NOTIFY Metric.TPS_SERVER 27.3 25.0 rfl rfl
  all_goals exact absurd rfl hcmd

lemma latBound_eq_specLat (a b : ℚ) (k : ℕ) (hk : 1 ≤ k) :
    latBound a b (1024 * k) = specLatBound a b (1024 * k) := by
  unfold latBound specLatBound
  rw [show (1024 * k - 1024) / 1024 = k - 1 from by omega,
      Nat.cast_sub hk, Nat.cast_one,
      show TOLERANCE = 30 from by norm_num [TOLERANCE]]
  push_cast
  ring

lemma tpsBound_eq_specTps (a b : ℚ) (k : ℕ) (hk : 1 ≤ k) :
    tpsBound a b (1024 * k) = specTpsBound a b (1024 * k) := by
  unfold tpsBound specTpsBound
  rw [show (1024 * k - 1024) / 1024 = k - 1 from by omega,
      Nat.cast_sub hk, Nat.cast_one,
      show TOLERANCE = 30 from by norm_num [TOLERANCE]]
  push_cast
  ring

lemma c1_case_lat (cmd : OmbtControllerCommand) (mv : ℕ) (a b : ℚ) (k : ℕ) (hk : 1 ≤ k)
    (e1 : calculate_threshold cmd mv (1024 * k) = some (latBound a b (1024 * k)))
    (e2 : specExpectedBound cmd mv (1024 * k) = some (specLatBound a b (1024 * k))) :
    calculate_threshold cmd mv (1024 * k) = specExpectedBound cmd mv (1024 * k) := by
  rw [e1, e2, latBound_eq_specLat a b k hk]

lemma c1_case_tps (cmd : OmbtControllerCommand) (mv : ℕ) (a b : ℚ) (k : ℕ) (hk : 1 ≤ k)
    (e1 : calculate_threshold cmd mv (1024 * k) = some (tpsBound a b (1024 * k)))
    (e2 : specExpectedBound cmd mv (1024 * k) = some (specTpsBound a b (1024 * k))) :
    calculate_threshold cmd mv (1024 * k) = specExpectedBound cmd mv (1024 * k) := by
  rw [e1, e2, tpsBound_eq_specTps a b k hk]

/-- Claim C1, counterexample: at length 1025 (inside [1024, 65536] but
not a multiple of 1024) calculate_threshold does not return the exact
linear interpolation of the spec, because the source computes the step
(length-1024)/1024 with Python 2 integer division. -/
theorem C1_interpolation_cex :
    calculate_threshold .NOTIFY (Metric.val .LATENCY_CLIENT) 1025 ≠
      specExpectedBound .NOTIFY (Metric.val .LATENCY_CLIENT) 1025 := by
  rw [show calculate_threshold .NOTIFY (Metric.val .LATENCY_CLIENT) 1025 =
        some (latBound 10.5 22.0 1025) from rfl,
      show specExpectedBound .NOTIFY (Metric.val .LATENCY_CLIENT) 1025 =
        some (specLatBound 10.5 22.0 1025) from rfl]
  intro h
  have h2 := Option.some.inj h
  unfold latBound specLatBound at h2
  norm_num [TOLERANCE] at h2

/-- Claim C1 (amended): for every command of the baseline table, every
metric and every length that is a whole multiple of 1024 within
[1024, 65536], calculate_threshold equals the exact interpolation
formula of the spec (on SHUTDOWN both sides are none). -/
theorem C1_interpolation_at_kilobyte_steps (cmd : OmbtControllerCommand) (m : Metric)
    (k : ℕ) (hk1 : 1 ≤ k) (hk2 : k ≤ 64) :
    calculate_threshold cmd m.val (1024 * k) = specExpectedBound cmd m.val (1024 * k) := by
  cases cmd <;> cases m
  case RPC_CALL.LATENCY_CLIENT =>
    exact c1_case_lat OmbtControllerCommand.RPC_CALL (Metric.val .LATENCY_CLIENT) 15.0 33.5 k hk1 rfl rfl
  case RPC_CALL.LATENCY_SERVER =>
    exact c1_case_lat OmbtControllerCommand.RPC_CALL (Metric.val .LATENCY_SERVER) 7.2 13.4 k hk1 rfl rfl
  case RPC_CALL.TPS_CLIENT =>
    exact c1_case_tps OmbtControllerCommand.RPC_CALL (Metric.val .TPS_CLIENT) 35.0 30.4 k hk1 rfl rfl
  case RPC_CALL.TPS_SERVER =>
    exact c1_case_tps OmbtControllerCommand.RPC_CALL (Metric.val .TPS_SERVER) 35.0 30.7 k hk1 rfl rfl
  case RPC_CAST.LATENCY_CLIENT =>
    exact c1_case_lat OmbtControllerCommand.RPC_CAST (Metric.val .LATENCY_CLIENT) 4.0 4.8 k hk1 rfl rfl
  case RPC_CAST.LATENCY_SERVER =>
    exact c1_case_lat OmbtControllerCommand.RPC_CAST (Metric.val .LATENCY_SERVER) 6.5 9.9 k hk1 rfl rfl
  case RPC_CAST.TPS_CLIENT =>
    exact c1_case_tps OmbtControllerCommand.RPC_CAST (Metric.val .TPS_CLIENT) 38.6 38.3 k hk1 rfl rfl
  case RPC_CAST.TPS_SERVER =>
    exact c1_case_tps OmbtControllerCommand.RPC_CAST (Metric.val .TPS_SERVER) 39.0 38.7 k hk1 rfl rfl
  case RPC_FANOUT.LATENCY_CLIENT =>
    exact c1_case_lat OmbtControllerCommand.RPC_FANOUT (Metric.val .LATENCY_CLIENT) 3.1 4.3 k hk1 rfl rfl
  case RPC_FANOUT.LATENCY_SERVER =>
    exact c1_case_lat OmbtControllerCommand.RPC_FANOUT (Metric.val .LATENCY_SERVER) 7.7 12.8 k hk1 rfl rfl
  case RPC_FANOUT.TPS_CLIENT =>
    exact c1_case_tps OmbtControllerCommand.RPC_FANOUT (Metric.val .TPS_CLIENT) 38.5 38 k hk1 rfl rfl
  case RPC_FANOUT.TPS_SERVER =>
    exact c1_case_tps OmbtControllerCommand.RPC_FANOUT (Metric.val .TPS_SERVER) 77.9 76.8 k hk1 rfl rfl
  case NOTIFY.LATENCY_CLIENT =>
    exact c1_case_lat OmbtControllerCommand.NOTIFY (Metric.val .LATENCY_CLIENT) 10.5 22.0 k hk1 rfl rfl
  case NOTIFY.LATENCY_SERVER =>
    exact c1_case_lat OmbtControllerCommand.NOTIFY (Metric.val .LATENCY_SERVER) 5.7 15.4 k hk1 rfl rfl
  case NOTIFY.TPS_CLIENT =>
    exact c1_case_tps OmbtControllerCommand.NOTIFY (Metric.val .TPS_CLIENT) 27.1 24.8 k hk1 rfl rfl
  case NOTIFY.TPS_SERVER =>
    exact c1_case_tps OmbtControllerCommand.NOTIFY (Metric.val .TPS_SERVER) 27.3 25.0 k hk1 rfl rfl
  all_goals rfl

/-- Witness for C1_interpolation_at_kilobyte_steps at NOTIFY,
LATENCY_CLIENT, k = 2. -/
theorem C1_interpolation_at_kilobyte_steps_witness :
    calculate_threshold .NOTIFY (Metric.val .LATENCY_CLIENT) (1024 * 2) =
      specExpectedBound .NOTIFY (Metric.val .LATENCY_CLIENT) (1024 * 2) :=
  C1_interpolation_at_kilobyte_steps .NOTIFY .LATENCY_CLIENT 2 (by decide) (by decide)

/-- Claim C8: for every command of the baseline table and every metric,
calculate_threshold is monotone in length over [1024, 65536]
(non-decreasing for latency metrics, non-increasing for throughput
metrics with the shipped baseline values), and at length 1024 it equals
the tolerance-adjusted first anchor. -/
theorem C8_threshold_monotonic_and_anchor (cmd : OmbtControllerCommand) (m : Metric)
    (l1 l2 : ℕ) (hcmd : cmd ≠ .SHUTDOWN) (hlo : 1024 ≤ l1) (h12 : l1 ≤ l2) (hhi : l2 ≤ 65536)
    (q1 q2 : ℚ) (e1 : calculate_threshold cmd m.val l1 = some q1)
    (e2 : calculate_threshold cmd m.val l2 = some q2) :
    (m.isLatency = true → q1 ≤ q2) ∧ (m.isLatency = false → q2 ≤ q1) ∧
      calculate_threshold cmd m.val 1024 = some (adjustedFirstAnchor cmd m) := by
  refine ⟨?_, ?_, threshold_at_L0 cmd m hcmd⟩
  · intro hm
    have h := threshold_mono_lat cmd m hm l1 l2 h12
    rw [e1, e2] at h
    simpa using h
  · intro hm
    have h := threshold_mono_tps cmd m hm l1 l2 h12
    rw [e1, e2] at h
    simpa using h

/-- Witness for C8_threshold_monotonic_and_anchor at NOTIFY,
LATENCY_CLIENT, lengths 1024 and 2048. -/
theorem C8_threshold_monotonic_and_anchor_witness :
    (Metric.isLatency .LATENCY_CLIENT = true →
        latBound 10.5 22.0 1024 ≤ latBound 10.5 22.0 2048) ∧
    (Metric.isLatency .LATENCY_CLIENT = false →
        latBound 10.5 22.0 2048 ≤ latBound 10.5 22.0 1024) ∧
      calculate_threshold .NOTIFY (Metric.val .LATENCY_CLIENT) 1024 =
        some (adjustedFirstAnchor .NOTIFY .LATENCY_CLIENT) :=
  C8_threshold_monotonic_and_anchor .NOTIFY .LATENCY_CLIENT 1024 2048 (by decide)
    (by decide) (by decide) (by decide) _ _ rfl rfl

lemma is_running_antitone (p : PState) {t t' : ℕ} (h : t ≤ t') :
    p.is_running t' = true → p.is_running t = true := by
  unfold PState.is_running
  cases p.killed <;> cases p.exitsAt <;> simp <;> omega

lemma teardownLoop_not_running (p : PState) (t fuel : ℕ) (h : p.is_running t = false) :
    teardownLoop p t fuel = (p, []) := by
  cases fuel <;> simp [teardownLoop, h]

lemma teardownLoop_no_terminate (p : PState) (fuel : ℕ) : ∀ t,
    TAction.terminate ∉ (teardownLoop p t fuel).2 := by
  induction fuel with
  | zero =>
    intro t
    by_cases h : p.is_running t = true <;> simp [teardownLoop, h]
  | succ n ih =>
    intro t
    by_cases h : p.is_running t = true <;> simp [teardownLoop, h]
    exact ih (t + Process.ATTEMPT_DELAY)

lemma teardownLoop_kill_iff (p : PState) (fuel : ℕ) : ∀ t,
    (teardownLoop p t fuel).2.contains TAction.kill =
      p.is_running (t + fuel * Process.ATTEMPT_DELAY) := by
  induction fuel with
  | zero =>
    intro t
    by_cases h : p.is_running t = true <;> simp [teardownLoop, h]
  | succ n ih =>
    intro t
    by_cases h : p.is_running t = true
    · have hrec := ih (t + Process.ATTEMPT_DELAY)
      simp only [teardownLoop, h, if_true]
      rw [show t + Process.ATTEMPT_DELAY + n * Process.ATTEMPT_DELAY =
          t + (n + 1) * Process.ATTEMPT_DELAY by ring] at hrec
      simpa using hrec
    · have h2 : p.is_running (t + (n + 1) * Process.ATTEMPT_DELAY) = false := by
        by_contra hc
        simp only [Bool.not_eq_false] at hc
        have := is_running_antitone p (Nat.le_add_right t _) hc
        simp [this] at h
      simp only [Bool.not_eq_true] at h
      simp [teardownLoop, h, h2]

lemma teardownLoop_final_not_running (p : PState) (fuel : ℕ) : ∀ t,
    (teardownLoop p t fuel).1.is_running (t + fuel * Process.ATTEMPT_DELAY) = false := by
  induction fuel with
  | zero =>
    intro t
    by_cases h : p.is_running t = true
    · simp only [teardownLoop, h, if_true]
      simp [PState.is_running]
    · simp only [Bool.not_eq_true] at h
      simp [teardownLoop, h]
  | succ n ih =>
    intro t
    by_cases h : p.is_running t = true
    · have hrec := ih (t + Process.ATTEMPT_DELAY)
      simp only [teardownLoop, h, if_true]
      rw [show t + Process.ATTEMPT_DELAY + n * Process.ATTEMPT_DELAY =
          t + (n + 1) * Process.ATTEMPT_DELAY by ring] at hrec
      exact hrec
    · simp only [Bool.not_eq_true] at h
      have h2 : p.is_running (t + (n + 1) * Process.ATTEMPT_DELAY) = false := by
        by_contra hc
        simp only [Bool.not_eq_false] at hc
        have := is_running_antitone p (Nat.le_add_right t _) hc
        simp [this] at h
      simp [teardownLoop, h, h2]

/-- Claim C2, counterexample: for a process that is still running when
the finalizer executes, the emitted trace is three sleeps followed by a
forced kill; no graceful terminate signal is ever attempted, contrary
to the claim. -/
theorem C2_teardown_never_terminates_gracefully_cex :
    PState.is_running ⟨none, false⟩ 0 = true ∧
      TAction.terminate ∉ (Process.teardown ⟨none, false⟩ 0).2 ∧
      (Process.teardown ⟨none, false⟩ 0).2 =
        [TAction.sleep, TAction.sleep, TAction.sleep, TAction.kill] := by
  refine ⟨rfl, ?_, rfl⟩
  decide

/-- Claim C2 (amended): the process-wide finalizer sends no graceful
terminate; it re-checks liveness up to MAX_ATTEMPTS retries spaced
ATTEMPT_DELAY seconds apart and escalates directly to a forced kill
exactly when the process is still alive after all retries; a process
that has already exited is left untouched; and a second invocation of
the finalizer after the first one finished changes nothing. -/
theorem C2_teardown_kill_iff_alive_after_retries (p : PState) (t : ℕ) :
    TAction.terminate ∉ (Process.teardown p t).2 ∧
    (Process.teardown p t).2.contains TAction.kill =
      p.is_running (t + Process.MAX_ATTEMPTS * Process.ATTEMPT_DELAY) ∧
    (p.is_running t = false → Process.teardown p t = (p, [])) ∧
    (∀ t', t + Process.MAX_ATTEMPTS * Process.ATTEMPT_DELAY ≤ t' →
      Process.teardown (Process.teardown p t).1 t' = ((Process.teardown p t).1, [])) := by
  refine ⟨teardownLoop_no_terminate p Process.MAX_ATTEMPTS t,
    teardownLoop_kill_iff p Process.MAX_ATTEMPTS t,
    fun h => teardownLoop_not_running p t Process.MAX_ATTEMPTS h,
    fun t' ht' => ?_⟩
  apply teardownLoop_not_running
  by_contra hc
  simp only [Bool.not_eq_false] at hc
  have h2 := is_running_antitone _ ht' hc
  have h3 := teardownLoop_final_not_running p Process.MAX_ATTEMPTS t
  rw [Process.teardown] at h2
  simp [h2] at h3

/-- Witness for C2_teardown_kill_iff_alive_after_retries: a process
that exited at time 0 is left untouched by a teardown starting at
time 5, and a second invocation at time 9 changes nothing. -/
theorem C2_teardown_kill_iff_alive_after_retries_witness :
    Process.teardown ⟨some 0, false⟩ 5 = (⟨some 0, false⟩, []) ∧
      Process.teardown (Process.teardown ⟨some 0, false⟩ 5).1 9 =
        ((Process.teardown ⟨some 0, false⟩ 5).1, []) :=
  ⟨(C2_teardown_kill_iff_alive_after_retries ⟨some 0, false⟩ 5).2.2.1 (by decide),
   (C2_teardown_kill_iff_alive_after_retries ⟨some 0, false⟩ 5).2.2.2 9 (by decide)⟩

/-- Claim C4: get_results returns none whenever the command timed out
(terminated flag set) or the exit status is nonzero, and a non-none
result is produced only from a process with exit status 0 that was not
marked timed out. -/
theorem C4_get_results_none_unless_success (cmd : OmbtControllerCommand)
    (s : OmbtControllerState) :
    ((s.terminated = true ∨ s.returncode ≠ some 0) →
        OmbtController.get_results cmd s = none) ∧
      (∀ r, OmbtController.get_results cmd s = some r →
        s.returncode = some 0 ∧ s.terminated = false) := by
  constructor
  · intro h
    unfold OmbtController.get_results
    rw [if_pos]
    tauto
  · intro r h
    unfold OmbtController.get_results at h
    by_cases h0 : s.returncode ≠ some 0 ∨ s.terminated = true
    · rw [if_pos h0] at h
      exact absurd h (by simp)
    · push_neg at h0
      refine ⟨h0.1, ?_⟩
      simpa using h0.2

/-- Witness for C4_get_results_none_unless_success: a handle marked
timed out yields a none result. -/
theorem C4_get_results_none_unless_success_witness :
    OmbtController.get_results .NOTIFY ⟨some 0, true, "x"⟩ = none :=
  (C4_get_results_none_unless_success .NOTIFY ⟨some 0, true, "x"⟩).1 (Or.inl rfl)

/-- Claim C5: when the one-shot timeout fires, the callback sends a
graceful terminate and sets the terminated flag exactly when the
process is still running; when the process is no longer running the
callback is a no-op and the flag keeps its previous value. -/
theorem C5_timeout_callback_terminate_iff_running (t : Bool) :
    OmbtController._timeout true t = (true, [TAction.terminate]) ∧
      OmbtController._timeout false t = (t, []) :=
  ⟨rfl, rfl⟩

/-- Claim C9: from_output returns none on empty captured output, for
every command kind. -/
theorem C9_from_output_none_on_empty (cmd : OmbtControllerCommand) :
    OmbtResults.from_output cmd "" = none := rfl

lemma getElem_eq_of_isPrefixOf {p l : List Char} (h : p.isPrefixOf l = true) (i : ℕ)
    (hi : i < p.length) : l[i]? = p[i]? := by
  rw [ List.isPrefixOf_iff_prefix] at h
  obtain ⟨t, rfl⟩ := h
  rw [List.getElem?_append, if_pos hi]

lemma dropPref_none_of_incompat {l : List Char} (p q : List Char) (i : ℕ)
    (hip : i < p.length) (hiq : i < q.length) (hne : p[i]? ≠ q[i]?)
    (hp : p.isPrefixOf l = true) : dropPref q l = none := by
  have hq : ¬(q.isPrefixOf l = true) := by
    intro hq
    exact hne ((getElem_eq_of_isPrefixOf hp i hip).symm.trans (getElem_eq_of_isPrefixOf hq i hiq))
  unfold dropPref
  rw [if_neg hq]

lemma matchSectionHeader_starts_agg {w l : List Char} (h : matchSectionHeader w l = true) :
    List.isPrefixOf "Aggregated ".data l = true := by
  by_cases hp : List.isPrefixOf "Aggregated ".data l = true
  · exact hp
  · exfalso
    unfold matchSectionHeader dropPref at h
    rw [if_neg hp] at h
    simp at h

lemma matchThroughput_starts_tag {l : List Char} {q : ℚ} (h : matchThroughput l = some q) :
    List.isPrefixOf "Aggregate throughput: ".data l = true := by
  by_cases hp : List.isPrefixOf "Aggregate throughput: ".data l = true
  · exact hp
  · exfalso
    unfold matchThroughput dropPref at h
    rw [if_neg hp] at h
    simp at h

lemma matchLatency_starts_tag {l : List Char} {q : ℚ} (h : matchLatency l = some q) :
    List.isPrefixOf "Latency ".data l = true := by
  by_cases hp : List.isPrefixOf "Latency ".data l = true
  · exact hp
  · exfalso
    unfold matchLatency dropPref at h
    rw [if_neg hp] at h
    simp at h

lemma matchSectionHeader_false_of_none {w l : List Char}
    (h : dropPref "Aggregated ".data l = none) : matchSectionHeader w l = false := by
  unfold matchSectionHeader
  rw [h]

lemma matchThroughput_none_of_none {l : List Char}
    (h : dropPref "Aggregate throughput: ".data l = none) : matchThroughput l = none := by
  unfold matchThroughput
  rw [h]

lemma matchLatency_none_of_none {l : List Char}
    (h : dropPref "Latency ".data l = none) : matchLatency l = none := by
  unfold matchLatency
  rw [h]

lemma processLine_server {l : List Char} (h : matchSectionHeader "Server".data l = true)
    (results : OmbtResults) (cur : Option Side) :
    processLine (results, cur) l = (results, some Side.server) := by
  have hpre := matchSectionHeader_starts_agg h
  have herr : dropPref "Error: ".data l = none :=
    dropPref_none_of_incompat "Aggregated ".data "Error: ".data 0
      (by decide) (by decide) (by decide) hpre
  have htp : matchThroughput l = none :=
    matchThroughput_none_of_none (dropPref_none_of_incompat "Aggregated ".data
      "Aggregate throughput: ".data 9 (by decide) (by decide) (by decide) hpre)
  have hlat : matchLatency l = none :=
    matchLatency_none_of_none (dropPref_none_of_incompat "Aggregated ".data
      "Latency ".data 0 (by decide) (by decide) (by decide) hpre)
  simp [processLine, herr, h, htp, hlat]

lemma processLine_client {l : List Char} (hs : matchSectionHeader "Server".data l = false)
    (hc : matchSectionHeader "Client".data l = true)
    (results : OmbtResults) (cur : Option Side) :
    processLine (results, cur) l = (results, some Side.client) := by
  have hpre := matchSectionHeader_starts_agg hc
  have herr : dropPref "Error: ".data l = none :=
    dropPref_none_of_incompat "Aggregated ".data "Error: ".data 0
      (by decide) (by decide) (by decide) hpre
  have htp : matchThroughput l = none :=
    matchThroughput_none_of_none (dropPref_none_of_incompat "Aggregated ".data
      "Aggregate throughput: ".data 9 (by decide) (by decide) (by decide) hpre)
  have hlat : matchLatency l = none :=
    matchLatency_none_of_none (dropPref_none_of_incompat "Aggregated ".data
      "Latency ".data 0 (by decide) (by decide) (by decide) hpre)
  simp [processLine, herr, hs, hc, htp, hlat]

lemma processLine_throughput {l : List Char} {q : ℚ} (h : matchThroughput l = some q)
    (results : OmbtResults) (side : Side) :
    processLine (results, some side) l = (setThroughput results side q, some side) := by
  have hpre := matchThroughput_starts_tag h
  have herr : dropPref "Error: ".data l = none :=
    dropPref_none_of_incompat "Aggregate throughput: ".data "Error: ".data 0
      (by decide) (by decide) (by decide) hpre
  have hagg : dropPref "Aggregated ".data l = none :=
    dropPref_none_of_incompat "Aggregate throughput: ".data "Aggregated ".data 9
      (by decide) (by decide) (by decide) hpre
  have hsrv : matchSectionHeader "Server".data l = false := matchSectionHeader_false_of_none hagg
  have hcli : matchSectionHeader "Client".data l = false := matchSectionHeader_false_of_none hagg
  simp [processLine, herr, hsrv, hcli, h]

lemma processLine_latency {l : List Char} {q : ℚ} (h : matchLatency l = some q)
    (results : OmbtResults) (side : Side) :
    processLine (results, some side) l = (setLatency results side q, some side) := by
  have hpre := matchLatency_starts_tag h
  have herr : dropPref "Error: ".data l = none :=
    dropPref_none_of_incompat "Latency ".data "Error: ".data 0
      (by decide) (by decide) (by decide) hpre
  have hagg : dropPref "Aggregated ".data l = none :=
    dropPref_none_of_incompat "Latency ".data "Aggregated ".data 0
      (by decide) (by decide) (by decide) hpre
  have htp : matchThroughput l = none :=
    matchThroughput_none_of_none (dropPref_none_of_incompat "Latency ".data
      "Aggregate throughput: ".data 0 (by decide) (by decide) (by decide) hpre)
  have hsrv : matchSectionHeader "Server".data l = false := matchSectionHeader_false_of_none hagg
  have hcli : matchSectionHeader "Client".data l = false := matchSectionHeader_false_of_none hagg
  simp [processLine, herr, hsrv, hcli, htp, h]

lemma processLine_inert {l : List Char} (h : isInert l = true)
    (st : OmbtResults × Option Side) : processLine st l = st := by
  obtain ⟨results, cur⟩ := st
  simp only [isInert, Bool.and_eq_true, Bool.not_eq_true', Option.isNone_iff_eq_none] at h
  obtain ⟨⟨⟨⟨herr, hsrv⟩, hcli⟩, htp⟩, hlat⟩ := h
  cases cur with
  | none => simp [processLine, herr, hsrv, hcli]
  | some side => simp [processLine, herr, hsrv, hcli, htp, hlat]

lemma foldl_processLine_inert {L : List (List Char)} (h : ∀ l ∈ L, isInert l = true)
    (st : OmbtResults × Option Side) : L.foldl processLine st = st := by
  induction L generalizing st with
  | nil => rfl
  | cons a t ih =>
    rw [List.foldl_cons, processLine_inert (h a (by simp))]
    exact ih (fun l hl => h l (by simp [hl])) st

lemma processLine_no_header {l : List Char} (hs : matchSectionHeader "Server".data l = false)
    (hc : matchSectionHeader "Client".data l = false) (r : OmbtResults) :
    (processLine (r, none) l).1.client_data = r.client_data ∧
      (processLine (r, none) l).1.server_data = r.server_data ∧
      (processLine (r, none) l).2 = none := by
  cases hd : dropPref "Error: ".data l with
  | some msg => simp [processLine, hd]
  | none => simp [processLine, hd, hs, hc]

lemma foldl_processLine_no_header {L : List (List Char)}
    (h : ∀ l ∈ L, matchSectionHeader "Server".data l = false ∧
      matchSectionHeader "Client".data l = false) :
    ∀ r : OmbtResults,
      (L.foldl processLine (r, none)).1.client_data = r.client_data ∧
        (L.foldl processLine (r, none)).1.server_data = r.server_data ∧
        (L.foldl processLine (r, none)).2 = none := by
  induction L with
  | nil => exact fun r => ⟨rfl, rfl, rfl⟩
  | cons a t ih =>
    intro r
    have ha := h a (by simp)
    obtain ⟨hcl, hsv, hnone⟩ := processLine_no_header ha.1 ha.2 r
    rw [List.foldl_cons]
    have hpair : processLine (r, none) a = ((processLine (r, none) a).1, none) := by
      rw [Prod.ext_iff]
      exact ⟨rfl, hnone⟩
    rw [hpair]
    have ihh := ih (fun l hl => h l (by simp [hl])) (processLine (r, none) a).1
    exact ⟨ihh.1.trans hcl, (ihh.2.1).trans hsv, ihh.2.2⟩

/-- Claim C6: for every output whose lines decompose into one server
aggregate header, then one throughput and one latency line, then one
client aggregate header, then one throughput and one latency line,
with every other line matching none of the five patterns, from_output
returns a result whose four metric fields equal exactly the four
numeric tokens of the text. -/
theorem C6_parser_extracts_exact_tokens (cmd : OmbtControllerCommand) (stdout : String)
    (p1 p2 p3 p4 p5 p6 p7 : List (List Char)) (sh tpS ltS ch tpC ltC : List Char)
    (ts ls tc lc : ℚ)
    (hsplit : (splitNl stdout.data).map rstripNl =
      p1 ++ [sh] ++ p2 ++ [tpS] ++ p3 ++ [ltS] ++ p4 ++ [ch] ++ p5 ++ [tpC] ++ p6 ++ [ltC] ++ p7)
    (hinert : ∀ l ∈ p1 ++ p2 ++ p3 ++ p4 ++ p5 ++ p6 ++ p7, isInert l = true)
    (hsh : matchSectionHeader "Server".data sh = true)
    (hch1 : matchSectionHeader "Server".data ch = false)
    (hch2 : matchSectionHeader "Client".data ch = true)
    (htpS : matchThroughput tpS = some ts) (hltS : matchLatency ltS = some ls)
    (htpC : matchThroughput tpC = some tc) (hltC : matchLatency ltC = some lc) :
    OmbtResults.from_output cmd stdout =
      some { ombt_controller_cmd := cmd, error_found := false, error_message := none,
             client_data := ⟨tc, lc⟩, server_data := ⟨ts, ls⟩ } := by
  have hne : stdout.data.isEmpty = false := by
    cases hd : stdout.data with
    | nil =>
      rw [hd] at hsplit
      have hlen := congrArg List.length hsplit
      simp [splitNl, rstripNl, List.length_append] at hlen
      omega
    | cons c t => simp
  have h1 : ∀ l ∈ p1, isInert l = true := fun l hl => hinert l (by simp [hl])
  have h2 : ∀ l ∈ p2, isInert l = true := fun l hl => hinert l (by simp [hl])
  have h3 : ∀ l ∈ p3, isInert l = true := fun l hl => hinert l (by simp [hl])
  have h4 : ∀ l ∈ p4, isInert l = true := fun l hl => hinert l (by simp [hl])
  have h5 : ∀ l ∈ p5, isInert l = true := fun l hl => hinert l (by simp [hl])
  have h6 : ∀ l ∈ p6, isInert l = true := fun l hl => hinert l (by simp [hl])
  have h7 : ∀ l ∈ p7, isInert l = true := fun l hl => hinert l (by simp [hl])
  unfold OmbtResults.from_output
  rw [hne]
  simp only [Bool.false_eq_true, if_false]
  rw [hsplit]
  simp only [List.foldl_append, List.foldl_cons, List.foldl_nil]
  rw [foldl_processLine_inert h1, processLine_server hsh,
    foldl_processLine_inert h2, processLine_throughput htpS,
    foldl_processLine_inert h3, processLine_latency hltS,
    foldl_processLine_inert h4, processLine_client hch1 hch2,
    foldl_processLine_inert h5, processLine_throughput htpC,
    foldl_processLine_inert h6, processLine_latency hltC,
    foldl_processLine_inert h7]
  rfl

/-- Witness for C6_parser_extracts_exact_tokens on a concrete two
section output. -/
theorem C6_parser_extracts_exact_tokens_witness :
    OmbtResults.from_output .NOTIFY
        "Aggregated Server results:\nAggregate throughput: 10.5 msgs/sec\nLatency 7 samples (msecs): Average 2.5 StdDev 0.3\nAggregated Client results:\nAggregate throughput: 32.5 msgs/sec\nLatency 100 samples (msecs): Average 5.2 StdDev 1.1" =
      some { ombt_controller_cmd := .NOTIFY, error_found := false, error_message := none,
             client_data := ⟨(32 : ℚ) + 5 / 10 ^ 1, (5 : ℚ) + 2 / 10 ^ 1⟩,
             server_data := ⟨(10 : ℚ) + 5 / 10 ^ 1, (2 : ℚ) + 5 / 10 ^ 1⟩ } :=
  C6_parser_extracts_exact_tokens .NOTIFY _
    [] [] [] [] [] [] []
    "Aggregated Server results:".data
    "Aggregate throughput: 10.5 msgs/sec".data
    "Latency 7 samples (msecs): Average 2.5 StdDev 0.3".data
    "Aggregated Client results:".data
    "Aggregate throughput: 32.5 msgs/sec".data
    "Latency 100 samples (msecs): Average 5.2 StdDev 1.1".data
    ((10 : ℚ) + 5 / 10 ^ 1) ((2 : ℚ) + 5 / 10 ^ 1)
    ((32 : ℚ) + 5 / 10 ^ 1) ((5 : ℚ) + 2 / 10 ^ 1)
    (by decide) (by decide) (by decide) (by decide) (by decide)
    rfl rfl rfl rfl

/-- Claim C7: a throughput or latency line is attributed only to the
section selected by the most recent preceding header; lines processed
while no header has been seen leave both metric records unchanged, and
the client-only scenario input yields the parsed client metrics while
the server metrics stay at their zero defaults. -/
theorem C7_metric_lines_before_header_set_no_field :
    (∀ (L : List (List Char)),
        (∀ l ∈ L, matchSectionHeader "Server".data l = false ∧
          matchSectionHeader "Client".data l = false) →
        ∀ r : OmbtResults,
          (L.foldl processLine (r, none)).1.client_data = r.client_data ∧
            (L.foldl processLine (r, none)).1.server_data = r.server_data) ∧
      ∀ cmd : OmbtControllerCommand,
        OmbtResults.from_output cmd
            "Aggregated ... Client results:\nAggregate throughput: 32.5 msgs/sec\nLatency 100 samples (msecs): Average 5.2 StdDev 1.1" =
          some { ombt_controller_cmd := cmd, error_found := false, error_message := none,
                 client_data := ⟨(32 : ℚ) + 5 / 10 ^ 1, (5 : ℚ) + 2 / 10 ^ 1⟩,
                 server_data := OmbtData.init } := by
  constructor
  · intro L h r
    have hh := foldl_processLine_no_header h r
    exact ⟨hh.1, hh.2.1⟩
  · intro cmd
    rfl

/-- Witness for C7_metric_lines_before_header_set_no_field: a lone
throughput line with no preceding header leaves both metric records at
their initial state. -/
theorem C7_metric_lines_before_header_set_no_field_witness :
    (List.foldl processLine (OmbtResults.init .NOTIFY, none)
        ["Aggregate throughput: 32.5 msgs/sec".data]).1.client_data =
      (OmbtResults.init .NOTIFY).client_data ∧
    (List.foldl processLine (OmbtResults.init .NOTIFY, none)
        ["Aggregate throughput: 32.5 msgs/sec".data]).1.server_data =
      (OmbtResults.init .NOTIFY).server_data :=
  C7_metric_lines_before_header_set_no_field.1
    ["Aggregate throughput: 32.5 msgs/sec".data] (by decide) (OmbtResults.init .NOTIFY)

/-- Claim C3, counterexample: an object carrying type "allocator" is
filtered out, because the source compares the type field against the
full tag "org.apache.qpid.dispatch.allocator"; the parse of the
array of the claim yields no entry at all. -/
theorem C3_type_allocator_is_filtered_out_cex :
    AllocatorInfo.from_qdmanage_json_out
        [[("type", JValue.jstr "allocator"), ("typeName", JValue.jstr "X"),
          ("totalAllocFromHeap", JValue.jnum 10)]] = some [] := by
  decide

/-- Claim C3 (amended): parsing a management-query array containing an
object whose type field is the full tag
"org.apache.qpid.dispatch.allocator", whose typeName is some name and
whose totalAllocFromHeap is some count, yields exactly one snapshot
entry, carrying that typeName and that count. -/
theorem C3_roundtrip_with_full_type_tag (o : JObject) (tn : String) (n : ℤ)
    (htype : dictGet o "type" = some (JValue.jstr "org.apache.qpid.dispatch.allocator"))
    (hname : dictGet o "typeName" = some (JValue.jstr tn))
    (halloc : dictGet o "totalAllocFromHeap" = some (JValue.jnum n)) :
    ∃ a, AllocatorInfo.from_qdmanage_json_out [o] = some [a] ∧
      a.typeName = some tn ∧ a.totalAllocFromHeap = n := by
  refine ⟨AllocatorInfo.ofObject o, ?_, ?_, ?_⟩
  · unfold AllocatorInfo.from_qdmanage_json_out
    rw [if_pos (by simp [htype])]
    simp [List.filter, htype]
  · simp [AllocatorInfo.ofObject, getStrField, hname]
  · simp [AllocatorInfo.ofObject, getIntField, halloc]

/-- Witness for C3_roundtrip_with_full_type_tag on the concrete object
of the claim, with the full type tag. -/
theorem C3_roundtrip_with_full_type_tag_witness :
    ∃ a, AllocatorInfo.from_qdmanage_json_out
        [[("type", JValue.jstr "org.apache.qpid.dispatch.allocator"),
          ("typeName", JValue.jstr "X"), ("totalAllocFromHeap", JValue.jnum 10)]] =
      some [a] ∧ a.typeName = some "X" ∧ a.totalAllocFromHeap = 10 :=
  C3_roundtrip_with_full_type_tag _ "X" 10 (by decide) (by decide) (by decide)

/-- Claim C10: threshold_exceeds_list returns a list (possibly empty)
exactly when typeName is one of the hard-coded allocator type names of
THRESHOLDS; for any other typeName (or none at all) the lookup yields
no entry and the iteration over it raises, so the error branch is
reachable at the public interface. -/
theorem C10_exceeds_list_iff_typeName_in_thresholds (a : AllocatorInfo) :
    (∃ l, a.threshold_exceeds_list = some l) ↔
      ∃ tn, a.typeName = some tn ∧ (dictGet THRESHOLDS tn).isSome = true := by
  unfold AllocatorInfo.threshold_exceeds_list
  cases htn : a.typeName with
  | none => simp
  | some tn =>
    cases hth : dictGet THRESHOLDS tn with
    | none => simp [hth]
    | some th => simp [hth]

end DispatchTester
